import Mathlib

/-!
Verification of the port-forward helper module of the terraform-provider-cockroach
repository (`internal/provider/helper.go`).

The pure helpers (`getPodName`, `mapToSelectorStr`, `convertToString`, `contains`)
are embedded directly as Lean functions.  The orchestrator
(`tryPortForwardIfNeeded`) is stateful and concurrent; it is embedded as a pure
function over an environment record (`KubeEnv`) holding the outcome of every
external collaborator call, producing a trace (`SetupTrace`) that records the
chronological sequence of events on the readiness and error channels along with
flags saying which steps of the setup sequence were executed.  The `select` at
the end of the Go function is embedded as `completionGate`, which takes the
first channel event in time order (in the Go runtime the blocked `select` is
woken by whichever channel operation completes first; readiness is closed
strictly before any post-readiness error is sent).
-/

namespace Provider

/-- Health phase of a candidate pod, mirroring `v1.PodPhase` as used by the code
(only equality with `v1.PodRunning` is ever tested). -/
inductive PodPhase where
  | pending
  | running
  | succeeded
  | failed
  | unknown
deriving DecidableEq, Repr

/-- A candidate pod: the code reads `pod.Name` and `pod.Status.Phase`. -/
structure Pod where
  name : String
  phase : PodPhase
deriving DecidableEq, Repr

/-- Embedding of `getPodName` (helper.go:146-157).  The Go function returns the
pair `(string, error)`; we keep the pair shape, with `Option String` for the
error, so the returned-name-on-error behaviour is visible. -/
def getPodName (pods : List Pod) : String × Option String :=
  match pods with
  | [] => ("", some "no live pods behind the service")
  | pod :: rest =>
    if pod.phase ≠ PodPhase.running then getPodName rest
    else (pod.name, none)

/-- Embedding of `mapToSelectorStr` (helper.go:159-169).  The Go map is
modelled as an association list whose order is the (unspecified) iteration
order of the map. -/
def mapToSelectorStr (msel : List (String × String)) : String :=
  msel.foldl
    (fun selector kv =>
      (if selector ≠ "" then selector ++ "," else selector) ++ (kv.1 ++ "=" ++ kv.2))
    ""

/-- A dynamically typed Go value (`interface{}`), as far as `convertToString`
can observe it: either a string or some non-string value. -/
inductive GoValue where
  | str (s : String)
  | intVal (n : Int)
  | boolVal (b : Bool)
  | nilVal
deriving DecidableEq, Repr

/-- The unguarded type assertion `raw.(string)`: `none` models the Go panic on
a non-string value. -/
def typeAssertString : GoValue → Option String
  | GoValue.str s => some s
  | _ => none

/-- Embedding of `convertToString` (helper.go:171-178).  The result is `none`
exactly when the Go loop panics on the first non-string element. -/
def convertToString (raw_list : List GoValue) : Option (List String) :=
  match raw_list with
  | [] => some []
  | raw :: rest =>
    match typeAssertString raw with
    | none => none
    | some s =>
      match convertToString rest with
      | none => none
      | some tail => some (s :: tail)

/-- Embedding of `contains` (helper.go:180-187). -/
def contains (elems : List String) (v : String) : Bool :=
  match elems with
  | [] => false
  | s :: rest => if v == s then true else contains rest v

/-! ### Specification-side definitions -/

/-- The first candidate in input order whose phase is Running (specification
wording of the Backend Picker's tie-break policy). -/
def firstRunning : List Pod → Option Pod
  | [] => none
  | p :: rest => if p.phase = PodPhase.running then some p else firstRunning rest

/-- One `key=value` clause of a selector. -/
def clause (kv : String × String) : String := kv.1 ++ "=" ++ kv.2

/-- Specification join: N clauses joined by exactly N-1 commas, no leading or
trailing comma; empty list gives the empty string. -/
def joinClauses : List String → String
  | [] => ""
  | [c] => c
  | c :: c2 :: cs => c ++ "," ++ joinClauses (c2 :: cs)

/-! ### Helper lemmas -/

theorem clause_ne_empty (kv : String × String) : clause kv ≠ "" := by
  intro h
  have hlen : (clause kv).length = 0 := by rw [h]; rfl
  simp [clause, String.length_append] at hlen
  exact absurd hlen.1.2 (by decide)

theorem foldl_selector_step (l : List (String × String)) :
    ∀ acc : String, acc ≠ "" →
      l.foldl
        (fun selector kv =>
          (if selector ≠ "" then selector ++ "," else selector) ++ (kv.1 ++ "=" ++ kv.2))
        acc
      = acc ++
        (match l with
         | [] => ""
         | _ :: _ => "," ++ joinClauses (l.map clause)) := by
  induction l with
  | nil => intro acc _; simp
  | cons kv rest ih =>
    intro acc hacc
    have hne : (acc ++ ",") ++ (kv.1 ++ "=" ++ kv.2) ≠ "" := by
      intro h
      have hlen : ((acc ++ ",") ++ (kv.1 ++ "=" ++ kv.2)).length = 0 := by rw [h]; rfl
      simp [String.length_append] at hlen
      exact absurd hlen.1.2 (by decide)
    simp only [List.foldl_cons]
    rw [if_pos hacc, ih _ hne]
    cases rest with
    | nil => simp [joinClauses, clause, String.append_assoc]
    | cons kv2 rest2 => simp [joinClauses, clause, String.append_assoc]

/-! ### The orchestrator (`tryPortForwardIfNeeded`, helper.go:20-144)

The external collaborators (Kubernetes client, url parsing, SPDY transport,
port-forwarder) are modelled by a `KubeEnv` record holding the outcome each
call would return in this attempt. -/

/-- The kube client configuration (`kubeConfig`); only `Host` is read. -/
structure KubeConfig where
  host : String
deriving DecidableEq, Repr

/-- The connection parameters read from `cockroachClient.kubeConn`. -/
structure KubeConn where
  nameSpace : String
  serviceName : String
  remotePort : String
deriving DecidableEq, Repr

/-- The resolved Kubernetes service: the code reads `svc.Spec.Selector` and
`svc.Namespace`. -/
structure KubeService where
  selector : List (String × String)
  nameSpace : String
deriving DecidableEq, Repr

/-- One `(local, remote)` bound port pair returned by `pf.GetPorts()`. -/
structure ForwardedPort where
  localNum : Nat
  remoteNum : Nat
deriving DecidableEq, Repr

/-- Decidable equality for `Except`, needed so concrete environments can be
compared by `decide`. -/
def exceptDecEq {ε α : Type} [DecidableEq ε] [DecidableEq α] :
    (a b : Except ε α) → Decidable (a = b)
  | Except.error x, Except.error y =>
    if h : x = y then Decidable.isTrue (by rw [h])
    else Decidable.isFalse (by intro hc; cases hc; exact h rfl)
  | Except.error _, Except.ok _ => Decidable.isFalse (by intro hc; cases hc)
  | Except.ok _, Except.error _ => Decidable.isFalse (by intro hc; cases hc)
  | Except.ok x, Except.ok y =>
    if h : x = y then Decidable.isTrue (by rw [h])
    else Decidable.isFalse (by intro hc; cases hc; exact h rfl)

instance {ε α : Type} [DecidableEq ε] [DecidableEq α] : DecidableEq (Except ε α) :=
  exceptDecEq

/-- Outcomes of the external collaborator calls for one attempt, in the order
the setup sequence makes them, plus whether the forwarding loop ever closes
the readiness channel and whether a SIGINT/SIGTERM arrives. -/
structure KubeEnv where
  getService : Except String KubeService
  listPods : Except String (List Pod)
  parseURL : Except String Unit
  roundTripperFor : Except String Unit
  newOnAddresses : Except String Unit
  forwardReady : Bool
  getPorts : Except String (List ForwardedPort)
  interrupt : Bool
deriving DecidableEq, Repr

/-- The error kinds of the setup sequence, one per `errCh <-` site in
helper.go; each carries the detail the code formats into the error value. -/
inductive SetupError where
  | serviceLookupFailed (msg : String)
  | emptySelector (serviceName : String)
  | podListFailed (msg : String)
  | noCandidates (selector : String)
  | noHealthyBackend (msg : String)
  | urlConstructionFailed (msg : String)
  | transportSetupFailed (msg : String)
  | tunnelCreationFailed (msg : String)
  | portQueryFailed (msg : String)
  | unexpectedPortCount (got : Nat)
deriving DecidableEq, Repr

/-- A channel event observable by the `select` in helper.go:134-140, in
chronological order: the readiness channel closing, or an error being sent on
`errCh`. -/
inductive Event where
  | ready
  | errSent (e : SetupError)
deriving DecidableEq, Repr

/-- Trace of one run of the setup goroutine (helper.go:41-132): the channel
events in time order, plus flags recording which steps were executed. -/
structure SetupTrace where
  events : List Event
  podsListed : Bool := false
  podPicked : Bool := false
  urlBuilt : Bool := false
  transportBuilt : Bool := false
  tunnelCreated : Bool := false
  forwardSpawned : Bool := false
  portsQueried : Bool := false
  successLogged : Bool := false
  chosenBackend : Option String := none
deriving DecidableEq, Repr

/-- Embedding of the setup goroutine body (helper.go:44-131), step by step in
source order.  When a step fails the goroutine sends the error and returns;
when `NewOnAddresses` succeeds the goroutine blocks on `<-readyCh`, so if the
forwarding loop never reports readiness the trace has no events at all. -/
def runSetup (conn : KubeConn) (env : KubeEnv) : SetupTrace :=
  match env.getService with
  | Except.error err =>
    { events := [Event.errSent (SetupError.serviceLookupFailed err)] }
  | Except.ok svc =>
    if mapToSelectorStr svc.selector = "" then
      { events := [Event.errSent (SetupError.emptySelector conn.serviceName)] }
    else
      match env.listPods with
      | Except.error err =>
        { events := [Event.errSent (SetupError.podListFailed err)]
          podsListed := true }
      | Except.ok pods =>
        if pods.length = 0 then
          { events := [Event.errSent (SetupError.noCandidates (mapToSelectorStr svc.selector))]
            podsListed := true }
        else
          match getPodName pods with
          | (_, some err) =>
            { events := [Event.errSent (SetupError.noHealthyBackend err)]
              podsListed := true, podPicked := true }
          | (livePod, none) =>
            match env.parseURL with
            | Except.error err =>
              { events := [Event.errSent (SetupError.urlConstructionFailed err)]
                podsListed := true, podPicked := true
                chosenBackend := some livePod }
            | Except.ok _ =>
              match env.roundTripperFor with
              | Except.error err =>
                { events := [Event.errSent (SetupError.transportSetupFailed err)]
                  podsListed := true, podPicked := true, urlBuilt := true
                  chosenBackend := some livePod }
              | Except.ok _ =>
                match env.newOnAddresses with
                | Except.error err =>
                  { events := [Event.errSent (SetupError.tunnelCreationFailed err)]
                    podsListed := true, podPicked := true, urlBuilt := true
                    transportBuilt := true
                    chosenBackend := some livePod }
                | Except.ok _ =>
                  if env.forwardReady then
                    match env.getPorts with
                    | Except.error err =>
                      { events := [Event.ready,
                          Event.errSent (SetupError.portQueryFailed err)]
                        podsListed := true, podPicked := true, urlBuilt := true
                        transportBuilt := true, tunnelCreated := true
                        forwardSpawned := true, portsQueried := true
                        chosenBackend := some livePod }
                    | Except.ok actualPorts =>
                      if actualPorts.length ≠ 1 then
                        { events := [Event.ready,
                            Event.errSent
                              (SetupError.unexpectedPortCount actualPorts.length)]
                          podsListed := true, podPicked := true, urlBuilt := true
                          transportBuilt := true, tunnelCreated := true
                          forwardSpawned := true, portsQueried := true
                          chosenBackend := some livePod }
                      else
                        { events := [Event.ready]
                          podsListed := true, podPicked := true, urlBuilt := true
                          transportBuilt := true, tunnelCreated := true
                          forwardSpawned := true, portsQueried := true
                          successLogged := true
                          chosenBackend := some livePod }
                  else
                    { events := []
                      podsListed := true, podPicked := true, urlBuilt := true
                      transportBuilt := true, tunnelCreated := true
                      forwardSpawned := true
                      chosenBackend := some livePod }

/-- Outcome of the caller-facing call: nil diagnostics, a diagnostic built
from the carried error, or blocking forever (no timeout exists). -/
inductive Outcome where
  | success
  | failure (e : SetupError)
  | blocked
deriving DecidableEq, Repr

/-- Embedding of the `select` (helper.go:134-140): the first channel event in
time order decides; with no event the call blocks forever. -/
def completionGate : List Event → Outcome
  | [] => Outcome.blocked
  | Event.ready :: _ => Outcome.success
  | Event.errSent e :: _ => Outcome.failure e

/-- Observable result of one `tryPortForwardIfNeeded` call: the outcome
returned to the caller, whether the two goroutines were spawned, the setup
trace (none when the guard clause skipped everything), and the final state of
the caller-supplied channels. -/
structure ForwardResult where
  outcome : Outcome
  watcherSpawned : Bool
  setupSpawned : Bool
  trace : Option SetupTrace
  stopChClosed : Bool
  readyChClosed : Bool
deriving DecidableEq, Repr

/-- Embedding of `tryPortForwardIfNeeded` (helper.go:20-144).  `stopCh` is
closed only by the interrupt watcher; `readyCh` is closed by the forwarding
loop once it is ready (modelled by `env.forwardReady`). -/
def tryPortForwardIfNeeded (kubeConfig : Option KubeConfig) (conn : KubeConn)
    (env : KubeEnv) : ForwardResult :=
  match kubeConfig with
  | none =>
    { outcome := Outcome.success
      watcherSpawned := false
      setupSpawned := false
      trace := none
      stopChClosed := false
      readyChClosed := false }
  | some _ =>
    let t := runSetup conn env
    { outcome := completionGate t.events
      watcherSpawned := true
      setupSpawned := true
      trace := some t
      stopChClosed := env.interrupt
      readyChClosed := t.forwardSpawned && env.forwardReady }

/-- Is this event an error send on `errCh`? -/
def isErrEvent : Event → Bool
  | Event.ready => false
  | Event.errSent _ => true

/-- The error sends among a trace's events. -/
def errEvents (evts : List Event) : List Event :=
  evts.filter isErrEvent

/-! ### Concrete fixtures used by witnesses and counterexamples -/

/-- A concrete connection record. -/
def connA : KubeConn :=
  { nameSpace := "default", serviceName := "cockroachdb-public", remotePort := "26257" }

/-- A concrete kube config. -/
def configA : KubeConfig := { host := "https://kube.example.com" }

/-- A service whose selector is `{app: cockroachdb}`. -/
def svcA : KubeService := { selector := [("app", "cockroachdb")], nameSpace := "default" }

/-- A service with an empty selector mapping. -/
def svcEmptySel : KubeService := { selector := [], nameSpace := "default" }

/-- The pod list of spec Scenario A. -/
def podsA : List Pod :=
  [{ name := "p0", phase := PodPhase.pending }, { name := "p1", phase := PodPhase.running }]

/-- An environment in which every step succeeds but the tunnel ends up with
two bound ports (spec Scenario D). -/
def envTwoPorts : KubeEnv :=
  { getService := Except.ok svcA
    listPods := Except.ok podsA
    parseURL := Except.ok ()
    roundTripperFor := Except.ok ()
    newOnAddresses := Except.ok ()
    forwardReady := true
    getPorts := Except.ok [{ localNum := 5000, remoteNum := 26257 },
                           { localNum := 5001, remoteNum := 26258 }]
    interrupt := false }

/-- An environment in which the very first step, the service lookup, fails. -/
def envSvcFail : KubeEnv :=
  { getService := Except.error "connection refused"
    listPods := Except.ok podsA
    parseURL := Except.ok ()
    roundTripperFor := Except.ok ()
    newOnAddresses := Except.ok ()
    forwardReady := true
    getPorts := Except.ok [{ localNum := 5000, remoteNum := 26257 }]
    interrupt := false }

/-- An environment in which the resolved service has an empty selector. -/
def envEmptySel : KubeEnv :=
  { getService := Except.ok svcEmptySel
    listPods := Except.ok podsA
    parseURL := Except.ok ()
    roundTripperFor := Except.ok ()
    newOnAddresses := Except.ok ()
    forwardReady := true
    getPorts := Except.ok [{ localNum := 5000, remoteNum := 26257 }]
    interrupt := false }

/-- An environment in which everything succeeds and exactly one port is
bound. -/
def envOk : KubeEnv :=
  { getService := Except.ok svcA
    listPods := Except.ok podsA
    parseURL := Except.ok ()
    roundTripperFor := Except.ok ()
    newOnAddresses := Except.ok ()
    forwardReady := true
    getPorts := Except.ok [{ localNum := 5000, remoteNum := 26257 }]
    interrupt := false }

/-- An environment in which the port query itself fails after readiness. -/
def envPortQueryFail : KubeEnv :=
  { getService := Except.ok svcA
    listPods := Except.ok podsA
    parseURL := Except.ok ()
    roundTripperFor := Except.ok ()
    newOnAddresses := Except.ok ()
    forwardReady := true
    getPorts := Except.error "listeners not ready"
    interrupt := false }

/-! ### Theorems for the pure helpers -/

/-- C2: for every pod list containing at least one candidate whose phase is
Running, `getPodName` returns, without error, the name of the first Running
candidate in input order. -/
theorem getPodName_first_running (pods : List Pod)
    (h : ∃ p ∈ pods, p.phase = PodPhase.running) :
    ∃ p, firstRunning pods = some p ∧ getPodName pods = (p.name, none) := by
  induction pods with
  | nil => simp at h
  | cons q rest ih =>
    by_cases hq : q.phase = PodPhase.running
    · exact ⟨q, by simp [firstRunning, hq], by simp [getPodName, hq]⟩
    · obtain ⟨p, hp, hrun⟩ := h
      rcases List.mem_cons.mp hp with rfl | hmem
      · exact absurd hrun hq
      · obtain ⟨p2, h1, h2⟩ := ih ⟨p, hmem, hrun⟩
        exact ⟨p2, by simp [firstRunning, hq, h1], by simp [getPodName, hq, h2]⟩

/-- Witness for C2, on the pod list of spec Scenario A:
`[{p0, Pending}, {p1, Running}]` yields `"p1"` with no error. -/
theorem getPodName_first_running_witness :
    (∃ p ∈ podsA, p.phase = PodPhase.running) ∧
      ∃ p, firstRunning podsA = some p ∧ getPodName podsA = (p.name, none) :=
  ⟨⟨⟨"p1", PodPhase.running⟩, by decide, rfl⟩,
   getPodName_first_running podsA ⟨⟨"p1", PodPhase.running⟩, by decide, rfl⟩⟩

/-- C3: `getPodName` errors exactly when the list is empty or has no Running
candidate, and on error the returned name is the empty string. -/
theorem getPodName_error_iff (pods : List Pod) :
    ((getPodName pods).2.isSome ↔
        (pods = [] ∨ ∀ p ∈ pods, p.phase ≠ PodPhase.running)) ∧
    ((getPodName pods).2.isSome → (getPodName pods).1 = "") := by
  have aux : ∀ l : List Pod,
      ((getPodName l).2.isSome ↔ ∀ p ∈ l, p.phase ≠ PodPhase.running) ∧
      ((getPodName l).2.isSome → (getPodName l).1 = "") := by
    intro l
    induction l with
    | nil => exact ⟨by simp [getPodName], by intro _; rfl⟩
    | cons q rest ih =>
      by_cases hq : q.phase = PodPhase.running
      · constructor
        · simp [getPodName, hq]
        · simp [getPodName, hq]
      · have hstep : getPodName (q :: rest) = getPodName rest := by
          simp [getPodName, hq]
        rw [hstep]
        constructor
        · rw [ih.1]
          constructor
          · intro hall p hp
            rcases List.mem_cons.mp hp with rfl | hp2
            · exact hq
            · exact hall p hp2
          · intro hall p hp
            exact hall p (List.mem_cons_of_mem q hp)
        · exact ih.2

  constructor
  · rw [(aux pods).1]
    constructor
    · intro h; exact Or.inr h
    · rintro (rfl | h)
      · simp
      · exact h
  · exact (aux pods).2

/-- Witness for C3: on a list with a single Pending pod the call errors and
the returned name is empty; on the empty list likewise. -/
theorem getPodName_error_iff_witness :
    (getPodName [⟨"p0", PodPhase.pending⟩]).1 = "" ∧
      (getPodName ([] : List Pod)).2.isSome = true :=
  ⟨(getPodName_error_iff [⟨"p0", PodPhase.pending⟩]).2 (by decide),
   (getPodName_error_iff ([] : List Pod)).1.mpr (Or.inl rfl)⟩

/-- C4: `mapToSelectorStr` produces, for a mapping with N entries, exactly the
N `key=value` clauses joined by exactly N-1 commas with no leading or trailing
comma (`joinClauses`), and the empty string for N = 0 (`joinClauses [] = ""`). -/
theorem mapToSelectorStr_clauses (msel : List (String × String)) :
    mapToSelectorStr msel = joinClauses (msel.map clause) := by
  cases msel with
  | nil => rfl
  | cons kv rest =>
    unfold mapToSelectorStr
    simp only [List.foldl_cons]
    rw [if_neg (by simp)]
    rw [show ("" : String) ++ (kv.1 ++ "=" ++ kv.2) = kv.1 ++ "=" ++ kv.2 from
      String.empty_append _]
    rw [foldl_selector_step rest (kv.1 ++ "=" ++ kv.2) (clause_ne_empty kv)]
    cases rest with
    | nil => simp [joinClauses, clause]
    | cons kv2 rest2 => simp [joinClauses, clause, String.append_assoc]

/-- C9: `convertToString` preserves length, order and content when every
element is a string, and hits the unguarded type assertion (modelled as
`none`, the Go panic) exactly when some element is not a string. -/
theorem convertToString_spec (raw_list : List GoValue) :
    (∀ out, convertToString raw_list = some out →
        raw_list = out.map GoValue.str ∧ out.length = raw_list.length) ∧
    (convertToString raw_list = none ↔ ∃ v ∈ raw_list, typeAssertString v = none) := by
  induction raw_list with
  | nil =>
    constructor
    · intro out h
      simp [convertToString] at h
      subst h
      simp
    · simp [convertToString]
  | cons raw rest ih =>
    cases hr : typeAssertString raw with
    | none =>
      constructor
      · intro out h
        simp [convertToString, hr] at h
      · simp only [convertToString, hr]
        exact ⟨fun _ => ⟨raw, List.mem_cons_self raw rest, hr⟩, fun _ => trivial⟩
    | some s =>
      have hraw : raw = GoValue.str s := by
        cases raw <;> simp [typeAssertString] at hr
        simp [hr]
      cases hc : convertToString rest with
      | none =>
        constructor
        · intro out h
          simp [convertToString, hr, hc] at h
        · simp only [convertToString, hr, hc]
          obtain ⟨v, hv, hnone⟩ := ih.2.mp hc
          exact ⟨fun _ => ⟨v, List.mem_cons_of_mem raw hv, hnone⟩, fun _ => trivial⟩
      | some tail =>
        constructor
        · intro out h
          simp only [convertToString, hr, hc] at h
          obtain ⟨hrest, hlen⟩ := ih.1 tail hc
          rw [Option.some_inj] at h
          subst h
          constructor
          · rw [hraw, hrest]; rfl
          · simp [hlen]
        · simp only [convertToString, hr, hc]
          constructor
          · intro h; cases h
          · rintro ⟨v, hv, hnone⟩
            rcases List.mem_cons.mp hv with rfl | hv2
            · rw [hraw] at hnone; simp [typeAssertString] at hnone
            · exact absurd (ih.2.mpr ⟨v, hv2, hnone⟩) (by simp [hc])

/-- Witness for C9: a homogeneous string list converts successfully and a
list with an integer element panics. -/
theorem convertToString_spec_witness :
    ([GoValue.str "a", GoValue.str "b"] = (["a", "b"]).map GoValue.str ∧
        (["a", "b"] : List String).length = ([GoValue.str "a", GoValue.str "b"]).length) ∧
      convertToString [GoValue.str "a", GoValue.intVal 7] = none :=
  ⟨(convertToString_spec [GoValue.str "a", GoValue.str "b"]).1 ["a", "b"] (by decide),
   (convertToString_spec [GoValue.str "a", GoValue.intVal 7]).2.mpr
     ⟨GoValue.intVal 7, by decide, rfl⟩⟩

/-- C10: `contains elems v` is `true` exactly when `v` is an element of
`elems`; in particular it is `false` on the empty list. -/
theorem contains_iff_mem (elems : List String) (v : String) :
    (contains elems v = true ↔ v ∈ elems) ∧ contains [] v = false := by
  constructor
  · induction elems with
    | nil => simp [contains]
    | cons s rest ih =>
      by_cases h : v = s
      · simp [contains, h]
      · simp [contains, h, ih]
  · rfl

/-- Witness for C10: membership at a concrete list, both directions. -/
theorem contains_iff_mem_witness :
    contains ["a", "b"] "b" = true ∧ contains [] "x" = false :=
  ⟨(contains_iff_mem ["a", "b"] "b").1.mpr (by decide),
   (contains_iff_mem [] "x").2⟩

/-! ### Theorems for the orchestrator -/

/-- C7: with no kube config the call is a pure no-op: nil diagnostics
(`Outcome.success`), no goroutine spawned, no setup trace (hence no discovery
or transport collaborator call), and both caller-supplied channels untouched. -/
theorem notConfigured_noop (conn : KubeConn) (env : KubeEnv) :
    tryPortForwardIfNeeded none conn env =
      { outcome := Outcome.success
        watcherSpawned := false
        setupSpawned := false
        trace := none
        stopChClosed := false
        readyChClosed := false } := rfl

/-- C8: in every run of the setup goroutine at most one error is sent on
`errCh`, and exactly one is sent precisely in the failing runs — the runs
that produced some channel event but did not reach the success log. -/
theorem errSent_at_most_once (conn : KubeConn) (env : KubeEnv) :
    (errEvents (runSetup conn env).events).length ≤ 1 ∧
      ((errEvents (runSetup conn env).events).length = 1 ↔
        ((runSetup conn env).events ≠ [] ∧
          (runSetup conn env).successLogged = false)) := by
  unfold runSetup
  repeat' split
  all_goals simp [errEvents, isErrEvent]

/-- Witness for C8: the failing service-lookup run sends exactly one error. -/
theorem errSent_at_most_once_witness :
    (errEvents (runSetup connA envSvcFail).events).length = 1 :=
  (errSent_at_most_once connA envSvcFail).2.mpr ⟨by decide, by decide⟩

/-- C5: when the resolved service has an empty label mapping the goroutine
sends exactly the `EmptySelector` error and executes none of the later steps:
no pod listing, no backend pick, no transport build, no tunnel creation. -/
theorem emptySelector_aborts (conn : KubeConn) (env : KubeEnv) (svc : KubeService)
    (hsvc : env.getService = Except.ok svc) (hsel : svc.selector = []) :
    runSetup conn env =
      { events := [Event.errSent (SetupError.emptySelector conn.serviceName)]
        podsListed := false
        podPicked := false
        urlBuilt := false
        transportBuilt := false
        tunnelCreated := false
        forwardSpawned := false
        portsQueried := false
        successLogged := false
        chosenBackend := none } := by
  unfold runSetup
  rw [hsvc]
  simp [hsel, mapToSelectorStr]

/-- Witness for C5, on spec Scenario B: service selector `{}`. -/
theorem emptySelector_aborts_witness :
    runSetup connA envEmptySel =
      { events := [Event.errSent (SetupError.emptySelector "cockroachdb-public")]
        podsListed := false
        podPicked := false
        urlBuilt := false
        transportBuilt := false
        tunnelCreated := false
        forwardSpawned := false
        portsQueried := false
        successLogged := false
        chosenBackend := none } :=
  emptySelector_aborts connA envEmptySel svcEmptySel rfl rfl

/-- C6: after readiness the goroutine queries the bound ports; a failing query
sends `PortQueryFailed`, a count other than one sends `UnexpectedPortCount`,
and only a count of exactly one reaches the success log. -/
theorem post_ready_port_validation (conn : KubeConn) (env : KubeEnv)
    (svc : KubeService) (pods : List Pod) (livePod : String)
    (hsvc : env.getService = Except.ok svc)
    (hsel : mapToSelectorStr svc.selector ≠ "")
    (hpods : env.listPods = Except.ok pods)
    (hne : pods.length ≠ 0)
    (hpick : getPodName pods = (livePod, none))
    (hurl : env.parseURL = Except.ok ())
    (hrt : env.roundTripperFor = Except.ok ())
    (hpf : env.newOnAddresses = Except.ok ())
    (hready : env.forwardReady = true) :
    (∀ msg, env.getPorts = Except.error msg →
        (runSetup conn env).events =
          [Event.ready, Event.errSent (SetupError.portQueryFailed msg)] ∧
        (runSetup conn env).successLogged = false) ∧
    (∀ ps, env.getPorts = Except.ok ps → ps.length ≠ 1 →
        (runSetup conn env).events =
          [Event.ready, Event.errSent (SetupError.unexpectedPortCount ps.length)] ∧
        (runSetup conn env).successLogged = false) ∧
    (∀ ps, env.getPorts = Except.ok ps → ps.length = 1 →
        (runSetup conn env).events = [Event.ready] ∧
        (runSetup conn env).successLogged = true) := by
  have hne2 : pods ≠ [] := by
    intro h
    rw [h] at hne
    exact hne rfl
  refine ⟨fun msg hmsg => ?_, fun ps hps hn => ?_, fun ps hps h1 => ?_⟩
  · unfold runSetup
    rw [hsvc]
    simp [hsel, hpods, hne, hne2, hpick, hurl, hrt, hpf, hready, hmsg]
  · unfold runSetup
    rw [hsvc]
    simp [hsel, hpods, hne, hne2, hpick, hurl, hrt, hpf, hready, hps, hn]
  · unfold runSetup
    rw [hsvc]
    simp [hsel, hpods, hne, hne2, hpick, hurl, hrt, hpf, hready, hps, h1]

/-- Witness for C6, on spec Scenario D: two bound ports instead of one. -/
theorem post_ready_port_validation_witness :
    (runSetup connA envTwoPorts).events =
      [Event.ready, Event.errSent (SetupError.unexpectedPortCount 2)] ∧
    (runSetup connA envTwoPorts).successLogged = false :=
  (post_ready_port_validation connA envTwoPorts svcA podsA "p1" rfl (by decide)
      rfl (by decide) (by decide) rfl rfl rfl rfl).2.1
    [⟨5000, 26257⟩, ⟨5001, 26258⟩] rfl (by decide)

/-- Counterexample to C1 as stated: in the environment of spec Scenario D the
setup sequence fails with `UnexpectedPortCount` and sends that error on the
internal error signal, yet the readiness channel was closed first, so the
Completion Gate returns success and the caller receives no diagnostic at all. -/
theorem post_ready_error_lost_cex :
    Event.errSent (SetupError.unexpectedPortCount 2) ∈ (runSetup connA envTwoPorts).events ∧
    (errEvents (runSetup connA envTwoPorts).events).length = 1 ∧
    (tryPortForwardIfNeeded (some configA) connA envTwoPorts).outcome = Outcome.success := by
  decide

/-- Every setup run produces one of four event traces: nothing (a blocked
run), a single error, readiness alone, or readiness followed by one error. -/
theorem runSetup_events_shape (conn : KubeConn) (env : KubeEnv) :
    (runSetup conn env).events = [] ∨
    (∃ e, (runSetup conn env).events = [Event.errSent e]) ∨
    (runSetup conn env).events = [Event.ready] ∨
    (∃ e, (runSetup conn env).events = [Event.ready, Event.errSent e]) := by
  unfold runSetup
  repeat' split
  all_goals
    first
    | exact Or.inl rfl
    | exact Or.inr (Or.inl ⟨_, rfl⟩)
    | exact Or.inr (Or.inr (Or.inl rfl))
    | exact Or.inr (Or.inr (Or.inr ⟨_, rfl⟩))

/-- C1 (amended): the error is carried once to the Completion Gate and the
caller receives exactly one diagnostic describing the first failure for every
failure detected before the readiness signal fires (steps 1-7); for failures
detected after readiness (`PortQueryFailed`, `UnexpectedPortCount`) the gate
has already observed readiness and returns success instead. -/
theorem gate_first_event_delivery (conn : KubeConn) (env : KubeEnv) :
    (∀ e, Event.errSent e ∈ (runSetup conn env).events →
        Event.ready ∉ (runSetup conn env).events →
        completionGate (runSetup conn env).events = Outcome.failure e) ∧
    (Event.ready ∈ (runSetup conn env).events →
        completionGate (runSetup conn env).events = Outcome.success) := by
  have hshape := runSetup_events_shape conn env
  constructor
  · intro e he hnr
    rcases hshape with h0 | ⟨e0, h1⟩ | h2 | ⟨e0, h3⟩
    · rw [h0] at he; simp at he
    · rw [h1] at he ⊢
      simp at he
      rw [he]
      rfl
    · rw [h2] at he; simp at he
    · rw [h3] at hnr; simp at hnr
  · intro hr
    rcases hshape with h0 | ⟨e0, h1⟩ | h2 | ⟨e0, h3⟩
    · rw [h0] at hr; simp at hr
    · rw [h1] at hr; simp at hr
    · rw [h2]; rfl
    · rw [h3]; rfl

/-- Witness for C1 (amended): a pre-readiness failure (the service lookup) is
delivered to the caller as its diagnostic. -/
theorem gate_first_event_delivery_witness :
    completionGate (runSetup connA envSvcFail).events =
      Outcome.failure (SetupError.serviceLookupFailed "connection refused") :=
  (gate_first_event_delivery connA envSvcFail).1 _ (by decide) (by decide)

end Provider
